import Mathlib

/-!
Verification development for the MillzMalerficarum audio-reactive visualizer.

Shallow embedding of the core subsystems:
* `UiInteractions` — the audio→visual mapper `mapSoundToVisuals` from
  `src/js/ui-interactions.js`.
* `SoundModule` — preset store, spectral analysis, arpeggiator frequency
  computation, effect routing and the arpeggiator timer state machine from
  `src/sound/sound-module.js`.
* `HypercubeCoreM` — the dirty-uniform bookkeeping and shader-rebuild
  flagging from `src/core/HypercubeCore.js`.
* `ProjectionM` — the three 4D→3D projection formulas emitted as GLSL by
  `src/core/ProjectionManager.js`.

Numbers held in JavaScript variables are modelled as exact rationals `ℚ`
where only field arithmetic occurs, and as reals `ℝ` where the code applies
`Math.pow` with fractional exponents or GLSL `sqrt`/`normalize`.
-/

namespace Maleficarum

/-! ## Shared parameter records (`audioState.parameters` of sound-module.js,
merged over the default preset so every key exists) -/

structure DelayParams where
  active : Bool
  time : ℚ
  feedback : ℚ
deriving DecidableEq, Repr

structure ReverbParams where
  active : Bool
  decay : ℚ
  wet : ℚ
deriving DecidableEq, Repr

structure ArpeggiatorParams where
  active : Bool
  rate : ℚ
  pattern : List ℤ
deriving DecidableEq, Repr

structure GlitchParams where
  active : Bool
deriving DecidableEq, Repr

structure EffectsParams where
  delay : DelayParams
  reverb : ReverbParams
  arpeggiator : ArpeggiatorParams
  glitch : GlitchParams
deriving DecidableEq, Repr

structure OscillatorParams where
  type : String
  gain : ℚ
deriving DecidableEq, Repr

structure FilterParams where
  type : String
  frequency : ℚ
  Q : ℚ
deriving DecidableEq, Repr

structure EnvelopeParams where
  attack : ℚ
  release : ℚ
deriving DecidableEq, Repr

structure SoundParams where
  oscillator : OscillatorParams
  filter : FilterParams
  envelope : EnvelopeParams
  effects : EffectsParams
deriving DecidableEq, Repr

/-- The three normalized band levels handed to the mapper
(`audioAnalysisState` in ui-interactions.js). -/
structure AudioLevels where
  bass : ℚ
  mid : ℚ
  high : ℚ
deriving DecidableEq, Repr

namespace UiInteractions

/-- `clamp(value, min, max)` from ui-interactions.js:
`Math.max(min, Math.min(max, value))`. -/
def clamp (value lo hi : ℚ) : ℚ := max lo (min hi value)

/-- Output record of `mapSoundToVisuals` (the visual-parameter fields the
mapper computes; `xyPadActive` and `currentNoteFrequency` pass-throughs are
modelled alongside). -/
structure Visuals where
  morphFactor : ℚ
  glitchIntensity : ℚ
  rotationSpeed : ℚ
  dimension : ℚ
  gridDensity : ℚ
  projectionMethod : String
  xyPadActive : ℚ
  currentNoteFrequency : ℚ
deriving DecidableEq, Repr

/-- `mapSoundToVisuals(soundParams, audioLevels)` from ui-interactions.js
(lines 724–768).  `glitchEnabled` is the `uiState.glitchEnabled` toggle the
function reads, `xyPadOn` is `uiState.xyPad.active`, and `frequency` is
`audioLevels.frequency` (`none` when falsy, in which case `|| 440.0`
applies). -/
def mapSoundToVisuals (soundParams : SoundParams) (audioLevels : AudioLevels)
    (glitchEnabled : Bool) (xyPadOn : Bool) (frequency : Option ℚ) : Visuals :=
  let effects := soundParams.effects
  let envelope := soundParams.envelope
  let filter := soundParams.filter
  let arp := effects.arpeggiator
  let bass := audioLevels.bass
  let mid := audioLevels.mid
  let high := audioLevels.high
  let morphFactor :=
    clamp (0.1 + (filter.Q / 15) * 0.6 + (envelope.attack / 2) * 0.3 + mid * 0.2) 0 1
  let glitchIntensity :=
    if glitchEnabled then clamp (0.05 + high * 0.6 + (filter.Q / 10) * 0.3) 0 1 else 0
  let rotationSpeed :=
    clamp (0.1 + mid * 0.5 + high * 0.3 + (if arp.active then arp.rate * 0.04 else 0)) 0 2
  let dimension := clamp (3 + bass * 0.8 + (envelope.release / 3) * 0.5) 3 4
  let gridDensity := clamp (8 + bass * 8 - mid * 2) 5 20
  let delayActive := effects.delay.active
  let reverbActive := effects.reverb.active
  let highFeedback := effects.delay.feedback > 0.65
  let highWet := effects.reverb.wet > 0.75
  let projectionMethod :=
    if delayActive && highFeedback then "stereographic"
    else if reverbActive && highWet then "perspective"
    else if arp.active then "stereographic"
    else "orthographic"
  { morphFactor := morphFactor
    glitchIntensity := glitchIntensity
    rotationSpeed := rotationSpeed
    dimension := dimension
    gridDensity := gridDensity
    projectionMethod := projectionMethod
    xyPadActive := if xyPadOn then 1 else 0
    currentNoteFrequency := frequency.getD 440 }

/-! ### The spec's reference definition of the mapper (section 4.5 of the
spec), written independently from the spec's own formulas.  The feedback and
wet thresholds (0.65, 0.75) are the code's contractual constants. -/

/-- Modelled from the spec: `morphFactor = clamp(0.1 + resonance/15·0.6 +
attack/2·0.3 + mid·0.2, 0, 1)`. -/
def specMorphFactor (soundParams : SoundParams) (audioLevels : AudioLevels) : ℚ :=
  clamp (0.1 + soundParams.filter.Q / 15 * 0.6 + soundParams.envelope.attack / 2 * 0.3
    + audioLevels.mid * 0.2) 0 1

/-- Modelled from the spec: `glitchIntensity = glitch-toggle ?
clamp(0.05 + high·0.6 + resonance/10·0.3, 0, 1) : 0`. -/
def specGlitchIntensity (soundParams : SoundParams) (audioLevels : AudioLevels)
    (glitchToggle : Bool) : ℚ :=
  if glitchToggle then
    clamp (0.05 + audioLevels.high * 0.6 + soundParams.filter.Q / 10 * 0.3) 0 1
  else 0

/-- Modelled from the spec: `rotationSpeed = clamp(0.1 + mid·0.5 + high·0.3 +
(arp active ? rate·0.04 : 0), 0, 2)`. -/
def specRotationSpeed (soundParams : SoundParams) (audioLevels : AudioLevels) : ℚ :=
  clamp (0.1 + audioLevels.mid * 0.5 + audioLevels.high * 0.3 +
    (if soundParams.effects.arpeggiator.active then
      soundParams.effects.arpeggiator.rate * 0.04 else 0)) 0 2

/-- Modelled from the spec: `dimension = clamp(3 + bass·0.8 + release/3·0.5, 3, 4)`. -/
def specDimension (soundParams : SoundParams) (audioLevels : AudioLevels) : ℚ :=
  clamp (3 + audioLevels.bass * 0.8 + soundParams.envelope.release / 3 * 0.5) 3 4

/-- Modelled from the spec: `gridDensity = clamp(8 + bass·8 − mid·2, 5, 20)`. -/
def specGridDensity (audioLevels : AudioLevels) : ℚ :=
  clamp (8 + audioLevels.bass * 8 - audioLevels.mid * 2) 5 20

/-- Modelled from the spec: projection selection priority chain
`delay-active ∧ high-feedback → stereographic; else reverb-active ∧ high-wet →
perspective; else arpeggiator-active → stereographic; else orthographic`. -/
def specProjectionName (soundParams : SoundParams) : String :=
  if soundParams.effects.delay.active ∧ soundParams.effects.delay.feedback > 0.65 then
    "stereographic"
  else if soundParams.effects.reverb.active ∧ soundParams.effects.reverb.wet > 0.75 then
    "perspective"
  else if soundParams.effects.arpeggiator.active then "stereographic"
  else "orthographic"

end UiInteractions

namespace SoundModule

/-- The preset store `getPresetsDefinition()` keeps partial records that are
later merged over the default structure; a subfield a preset omits is `none`
here. -/
structure OscSpec where
  type : Option String := none
  gain : Option ℚ := none
deriving DecidableEq, Repr

structure FilterSpec where
  type : Option String := none
  frequency : Option ℚ := none
  Q : Option ℚ := none
deriving DecidableEq, Repr

structure EnvSpec where
  attack : Option ℚ := none
  release : Option ℚ := none
deriving DecidableEq, Repr

structure DelaySpec where
  active : Option Bool := none
  time : Option ℚ := none
  feedback : Option ℚ := none
deriving DecidableEq, Repr

structure ReverbSpec where
  active : Option Bool := none
  decay : Option ℚ := none
  wet : Option ℚ := none
deriving DecidableEq, Repr

structure GlitchSpec where
  active : Option Bool := none
deriving DecidableEq, Repr

structure ArpSpec where
  active : Option Bool := none
  rate : Option ℚ := none
  pattern : Option (List ℤ) := none
deriving DecidableEq, Repr

structure EffectsSpec where
  delay : Option DelaySpec := none
  reverb : Option ReverbSpec := none
  glitch : Option GlitchSpec := none
  arpeggiator : Option ArpSpec := none
deriving DecidableEq, Repr

structure PresetSpec where
  oscillator : Option OscSpec := none
  filter : Option FilterSpec := none
  envelope : Option EnvSpec := none
  effects : Option EffectsSpec := none
deriving DecidableEq, Repr

/-- `getPresetsDefinition()` from sound-module.js (lines 862–921), as an
association list in JavaScript object-insertion order (`Object.keys` order). -/
def getPresetsDefinition : List (String × PresetSpec) :=
  [("default",
    { oscillator := some { type := some "sawtooth", gain := some 0.5 }
      filter := some { type := some "lowpass", frequency := some 1500, Q := some 1.0 }
      envelope := some { attack := some 0.05, release := some 0.5 }
      effects := some
        { delay := some { active := some false, time := some 0.3, feedback := some 0.3 }
          reverb := some { active := some false, decay := some 1.5, wet := some 0.3 }
          glitch := some { active := some false }
          arpeggiator := some
            { active := some false, rate := some 8, pattern := some [0, 7, 12] } } }),
   ("vaporwave",
    { oscillator := some { type := some "sine", gain := some 0.4 }
      filter := some { frequency := some 800, Q := some 1.0 }
      envelope := some { attack := some 0.8, release := some 2.0 }
      effects := some
        { delay := some { active := some true, time := some 0.5, feedback := some 0.4 }
          reverb := some { active := some true, decay := some 3.0, wet := some 0.7 }
          arpeggiator := some { active := some false, rate := some 4 } } }),
   ("ambient_drone",
    { oscillator := some { type := some "sine", gain := some 0.4 }
      filter := some { frequency := some 600, Q := some 1.5 }
      envelope := some { attack := some 2.5, release := some 4.0 }
      effects := some
        { delay := some { active := some true, time := some 0.7, feedback := some 0.55 }
          reverb := some { active := some true, decay := some 5.0, wet := some 0.8 }
          arpeggiator := some { active := some false } } }),
   ("synthwave_lead",
    { oscillator := some { type := some "sawtooth", gain := some 0.6 }
      filter := some { frequency := some 1200, Q := some 5.0 }
      envelope := some { attack := some 0.02, release := some 0.4 }
      effects := some
        { delay := some { active := some true, time := some 0.25, feedback := some 0.3 }
          reverb := some { active := some true, decay := some 1.5, wet := some 0.4 }
          arpeggiator := some
            { active := some true, rate := some 12, pattern := some [0, 7, 12, 7] } } }),
   ("grimoire_pulse",
    { oscillator := some { type := some "square", gain := some 0.4 }
      filter := some { type := some "bandpass", frequency := some 900, Q := some 6.0 }
      envelope := some { attack := some 0.01, release := some 0.2 }
      effects := some
        { delay := some { active := some true, time := some 0.15, feedback := some 0.6 }
          reverb := some { active := some false }
          glitch := some { active := some true }
          arpeggiator := some
            { active := some true, rate := some 10, pattern := some [0, 3, 7, 10] } } })]

/-- `Object.keys(this.audioState.presets)`. -/
def presetKeys : List String := getPresetsDefinition.map Prod.fst

/-- `getPresetNames()` from sound-module.js (lines 923–927): the keys with
the `'default'` preset filtered out. -/
def getPresetNames : List String := presetKeys.filter (fun name => name ≠ "default")

/-- Preset lookup `this.audioState.presets[presetName]` as performed by
`applyPresetAudio`; `applyPresetAudio` proceeds iff this is `some`. -/
def lookupPreset (presetName : String) : Option PresetSpec :=
  (getPresetsDefinition.find? (fun p => p.fst = presetName)).map Prod.snd

/-- `applyPresetAudio(name)` warns and returns without mutating anything
exactly when the preset is missing from the store. -/
def applyPresetAudioAccepts (presetName : String) : Bool :=
  (lookupPreset presetName).isSome

end SoundModule

namespace HypercubeCoreM

/-- `Object.keys(DEFAULT_STATE)` from HypercubeCore.js (lines 11–63), in
declaration order. -/
def defaultStateKeys : List String :=
  ["startTime", "lastUpdateTime", "deltaTime", "time", "resolution", "mouse",
   "geometryType", "projectionMethod", "dimensions", "morphFactor",
   "rotationSpeed", "universeModifier", "patternIntensity", "gridDensity",
   "glitchIntensity", "plasmaSpeed", "plasmaScale", "moireIntensity",
   "moireScale", "currentNoteFrequency", "audioLevels", "colorScheme",
   "needsShaderUpdate", "_dirtyUniforms", "isRendering", "animationFrameId",
   "shaderProgramName", "callbacks"]

/-- The uniform names `start()` (lines 499–513), the constructor, and
`_updateShaderIfNeeded` add to the dirty set explicitly on top of the
`DEFAULT_STATE` keys. -/
def explicitDirtyUniforms : List String :=
  ["u_resolution", "u_primaryColor", "u_secondaryColor", "u_backgroundColor",
   "u_audioBass", "u_audioMid", "u_audioHigh", "u_dimension",
   "u_currentNoteFreq", "u_plasmaSpeed", "u_plasmaScale", "u_moireIntensity",
   "u_moireScale"]

/-- The dirty set right after `start()`:
`new Set(Object.keys(DEFAULT_STATE))` plus the explicit additions
(a JavaScript `Set` keeps insertion order; all names here are distinct). -/
def startDirtySet : List String := defaultStateKeys ++ explicitDirtyUniforms

/-- The uniform names handled by the `switch` statement of `_setUniforms`
(lines 349–374), excluding `u_time` which is refreshed before the loop. -/
def switchCaseUniforms : List String :=
  ["u_resolution", "u_mouse", "u_dimension", "u_morphFactor",
   "u_rotationSpeed", "u_universeModifier", "u_patternIntensity",
   "u_gridDensity", "u_glitchIntensity", "u_plasmaSpeed", "u_plasmaScale",
   "u_moireIntensity", "u_moireScale", "u_currentNoteFreq", "u_primaryColor",
   "u_secondaryColor", "u_backgroundColor", "u_audioBass", "u_audioMid",
   "u_audioHigh"]

/-- The engine's known uniform names: every uniform `_setUniforms` can
upload (its switch cases plus the always-refreshed `u_time`). -/
def knownUniformNames : List String := "u_time" :: switchCaseUniforms

/-- The `DEFAULT_STATE` keys holding a `number`, used by the `default:` case
of `_setUniforms` (`typeof this.state[stateKey] === 'number'`). -/
def numericStateKeys : List String :=
  ["startTime", "lastUpdateTime", "deltaTime", "time", "dimensions",
   "morphFactor", "rotationSpeed", "universeModifier", "patternIntensity",
   "gridDensity", "glitchIntensity", "plasmaSpeed", "plasmaScale",
   "moireIntensity", "moireScale", "currentNoteFrequency"]

/-- The uniforms declared by the base vertex and adapted fragment shader
sources in ShaderManager.js; `gl.getUniformLocation` resolves exactly these
names for the linked program. -/
def shaderUniformNames : List String :=
  ["u_resolution", "u_time", "u_mouse", "u_morphFactor", "u_glitchIntensity",
   "u_rotationSpeed", "u_dimension", "u_gridDensity", "u_universeModifier",
   "u_patternIntensity", "u_currentNoteFreq", "u_plasmaSpeed",
   "u_plasmaScale", "u_moireIntensity", "u_moireScale", "u_xyPadActive",
   "u_primaryColor", "u_secondaryColor", "u_backgroundColor", "u_audioBass",
   "u_audioMid", "u_audioHigh"]

/-- Result of one `_setUniforms` pass: the entries left dirty and the
uniforms actually uploaded with `gl.uniform*` calls. -/
structure TickResult where
  dirty : List String
  uploaded : List String
deriving DecidableEq, Repr

/-- The `dirty.forEach` body of `_setUniforms` (lines 342–401), processed in
set-insertion order.  `resolver name = true` models
`getUniformLocation(name) !== null`.  A `u_time` entry is skipped (handled
before the loop); a resolvable entry is uploaded and removed if it matches a
switch case or (default case) if dropping its first two characters yields a
numeric state key, and removed without upload otherwise; an unresolvable
entry stays dirty. -/
def processDirty (resolver : String → Bool) : List String → TickResult
  | [] => { dirty := [], uploaded := [] }
  | name :: rest =>
    let r := processDirty resolver rest
    if name = "u_time" then { r with dirty := name :: r.dirty }
    else if resolver name then
      if name ∈ switchCaseUniforms then { r with uploaded := name :: r.uploaded }
      else if name.drop 2 ∈ numericStateKeys then
        { r with uploaded := name :: r.uploaded }
      else r
    else { r with dirty := name :: r.dirty }

/-- One full `_setUniforms` pass: the time uniform is refreshed first when
its location resolves, else `u_time` is (re-)added to the dirty set; then
every dirty entry is processed. -/
def setUniformsTick (resolver : String → Bool) (dirty : List String) : TickResult :=
  let dirty0 :=
    if resolver "u_time" then dirty
    else if dirty.contains "u_time" then dirty else dirty ++ ["u_time"]
  let r := processDirty resolver dirty0
  if resolver "u_time" then { r with uploaded := "u_time" :: r.uploaded } else r

/-- Location resolution against the actual linked program: a name resolves
iff the shader sources declare it. -/
def shaderResolver : String → Bool := fun name => shaderUniformNames.contains name

/-! ### Render-state model for the rebuild flag (C5) -/

/-- The slice of `this.state` that `updateParameters` /
`_updateShaderIfNeeded` touch for geometry/projection changes, plus
observation fields: `relinkCount` counts successful
`shaderManager.createDynamicProgram` calls and `errorCalled` records the
`onError` callback firing. -/
structure CoreState where
  geometryType : String
  projectionMethod : String
  needsShaderUpdate : Bool
  isRendering : Bool
  errorCalled : Bool
  relinkCount : ℕ
  dirtyUniforms : List String
deriving DecidableEq, Repr

/-- `updateParameters(newParams)` (lines 240–296) restricted to the
`geometryType` and `projectionMethod` keys (`none` = key absent): a value
different from the current one is stored and raises the local
`shaderNeedsUpdate` flag, which sets `state.needsShaderUpdate` at the end. -/
def updateParametersGP (newGeom newProj : Option String) (s : CoreState) : CoreState :=
  let step1 : CoreState × Bool :=
    match newGeom with
    | none => (s, false)
    | some g =>
      if s.geometryType ≠ g then ({ s with geometryType := g }, true) else (s, false)
  let step2 : CoreState × Bool :=
    match newProj with
    | none => (step1.1, false)
    | some p =>
      if step1.1.projectionMethod ≠ p then
        ({ step1.1 with projectionMethod := p }, true)
      else (step1.1, false)
  if step1.2 || step2.2 then { step2.1 with needsShaderUpdate := true } else step2.1

/-- The shader-rebuild part of one `_render` frame
(`_updateShaderIfNeeded`, lines 180–234): when the rebuild flag is set, one
`createDynamicProgram` call is made; on success the flag clears and every
known uniform is re-marked dirty; on failure the loop stops and the error
callback fires.  With the flag clear the frame performs no relink. -/
def frameTick (linkOk : Bool) (s : CoreState) : CoreState :=
  if s.needsShaderUpdate then
    if linkOk then
      { s with needsShaderUpdate := false, relinkCount := s.relinkCount + 1,
               dirtyUniforms := startDirtySet }
    else { s with isRendering := false, errorCalled := true }
  else s

end HypercubeCoreM

namespace SoundModule

/-! ### Effect routing of a live voice (C4) -/

inductive EffectName where
  | delay
  | reverb
deriving DecidableEq, Repr

/-- The `active` flags of `parameters.effects.delay` / `.reverb`. -/
structure RoutingFlags where
  delayActive : Bool
  reverbActive : Bool
deriving DecidableEq, Repr

/-- Edge multiplicities from one live voice's envelope gain node to the two
effect buses: `sourceNode.connect(dest)` adds an edge,
`sourceNode.disconnect(dest)` removes every edge to `dest`. -/
structure BusConnections where
  delayEdges : ℕ
  reverbEdges : ℕ
deriving DecidableEq, Repr

/-- `_connectEffectsToNode(sourceNode)` from sound-module.js (lines
700–723).  A single `try { delay leg; reverb leg } catch {}` wraps both
legs.  Per the Web Audio specification, `sourceNode.disconnect(dest)`
throws `InvalidAccessError` when no connection to `dest` exists, and the
throw aborts the rest of the `try` block; `connect` never throws here.  A
thrown leg is modelled as an early return of the state reached so far. -/
def connectEffectsToNode (flags : RoutingFlags) (c : BusConnections) : BusConnections :=
  -- Delay leg: `sourceNode.disconnect(delayNode)` throws when the voice has
  -- no edge to the delay bus, abandoning the entire routine.
  if c.delayEdges = 0 then c
  else
    let c1 : BusConnections := { c with delayEdges := 0 }
    let c2 : BusConnections :=
      if flags.delayActive then { c1 with delayEdges := c1.delayEdges + 1 } else c1
    -- Reverb leg: the disconnect likewise throws when no reverb edge exists,
    -- abandoning the routine with the delay leg already applied.
    if c2.reverbEdges = 0 then c2
    else
      let c3 : BusConnections := { c2 with reverbEdges := 0 }
      if flags.reverbActive then { c3 with reverbEdges := c3.reverbEdges + 1 } else c3

/-- A live voice's routing state: the stored effect flags and the voice's
current bus connections. -/
structure VoiceRouting where
  flags : RoutingFlags
  conn : BusConnections
deriving DecidableEq, Repr

def getActive (e : EffectName) (flags : RoutingFlags) : Bool :=
  match e with
  | .delay => flags.delayActive
  | .reverb => flags.reverbActive

def setActive (e : EffectName) (b : Bool) (flags : RoutingFlags) : RoutingFlags :=
  match e with
  | .delay => { flags with delayActive := b }
  | .reverb => { flags with reverbActive := b }

/-- `toggleEffect(effectName, isActive)` (lines 638–697) for the delay and
reverb branches, acting on a live voice: an unchanged `active` flag returns
immediately; otherwise the flag is stored and `_connectEffectsToNode`
re-evaluates the voice's connections. -/
def toggleEffect (e : EffectName) (isActive : Bool) (s : VoiceRouting) : VoiceRouting :=
  if getActive e s.flags = isActive then s
  else
    let flags := setActive e isActive s.flags
    { flags := flags, conn := connectEffectsToNode flags s.conn }

/-! ### Note table and arpeggiator timer state machine (C2, C9) -/

/-- `this.noteFrequencies` from sound-module.js (lines 54–59). -/
def noteFrequencies : List (String × ℚ) :=
  [("C4", 261.63), ("C#4", 277.18), ("D4", 293.66), ("D#4", 311.13),
   ("E4", 329.63), ("F4", 349.23), ("F#4", 369.99), ("G4", 392.00),
   ("G#4", 415.30), ("A4", 440.00), ("A#4", 466.16), ("B4", 493.88),
   ("C5", 523.25)]

/-- `this.noteFrequencies[note]` (`none` models `undefined`). -/
def noteFrequency (note : String) : Option ℚ :=
  (noteFrequencies.find? (fun p => p.fst = note)).map Prod.snd

/-- The arpeggiator slice `audioState.arp`. -/
structure ArpState where
  active : Bool
  intervalId : Option ℕ
  rate : ℚ
  pattern : List ℤ
  currentStep : ℕ
  baseNote : Option String
deriving DecidableEq, Repr

/-- The timer-relevant slice of the sound module's state.  `timers` lists
the interval timers currently armed in the host environment (`setInterval`
arms a fresh handle, `clearInterval` disarms one); `paramActive` mirrors
`parameters.effects.arpeggiator.active`, the flag `toggleEffect` compares
for its early return, while `arp.active` is the internal
`audioState.arp.active`. -/
structure ModState where
  isInitialized : Bool
  isPlaying : Bool
  activeNote : Option String
  paramActive : Bool
  arp : ArpState
  timers : List ℕ
  nextTimer : ℕ
deriving DecidableEq, Repr

/-- `setInterval(...)`: arms a fresh timer handle and returns it. -/
def setIntervalM (s : ModState) : ℕ × ModState :=
  (s.nextTimer,
   { s with timers := s.timers ++ [s.nextTimer], nextTimer := s.nextTimer + 1 })

/-- `clearInterval(id)`: disarms the given handle. -/
def clearIntervalM (id : ℕ) (s : ModState) : ModState :=
  { s with timers := s.timers.erase id }

/-- The liveness check at the top of `_arpStep` (line 496): the step is
valid iff the arpeggiator is active, the pattern is non-empty and the base
note maps to a frequency. -/
def arpStateValid (s : ModState) : Bool :=
  s.arp.active && !s.arp.pattern.isEmpty &&
    (match s.arp.baseNote with
     | some note => (noteFrequency note).isSome
     | none => false)

/-- `_stopArpeggiator()` (lines 462–492): with no handle it returns at once;
otherwise it clears the interval and nulls the handle (the quick fade of the
in-flight voice is audio-graph work outside this slice). -/
def stopArpeggiator (s : ModState) : ModState :=
  match s.arp.intervalId with
  | none => s
  | some id =>
    let s1 := clearIntervalM id s
    { s1 with arp := { s1.arp with intervalId := none } }

/-- `_arpStep()` (lines 494–510): an invalid state self-stops the sequencer;
a valid step plays a note (audio-graph work) and advances `currentStep`. -/
def arpStep (s : ModState) : ModState :=
  if arpStateValid s then
    { s with arp := { s.arp with currentStep := s.arp.currentStep + 1 } }
  else stopArpeggiator s

/-- `_startArpeggiator()` (lines 452–460): refuses to arm while
uninitialized, while a handle already exists, or while the arpeggiator is
inactive; otherwise plays the first step immediately and arms the interval
timer. -/
def startArpeggiator (s : ModState) : ModState :=
  if !s.isInitialized || s.arp.intervalId.isSome || !s.arp.active then s
  else
    let s1 := arpStep s
    let armed := setIntervalM s1
    { armed.2 with arp := { armed.2.arp with intervalId := some armed.1 } }

/-- `startNote(note)` (lines 211–241): awaits initialization and requires a
known note; stores `activeNote`; with the arpeggiator active it (re)seeds
the base note and starts the timer only when nothing is playing, else it
cuts the sustained voice and starts a new one (audio-graph work). -/
def startNote (note : String) (s : ModState) : ModState :=
  if !s.isInitialized || !(noteFrequency note).isSome then s
  else
    let s0 := { s with activeNote := some note }
    if s0.arp.active then
      if !s0.isPlaying then
        let s1 := { s0 with arp := { s0.arp with baseNote := some note, currentStep := 0 } }
        let s2 := startArpeggiator s1
        { s2 with isPlaying := true }
      else { s0 with arp := { s0.arp with baseNote := some note } }
    else { s0 with isPlaying := true }

/-- `stopNote(useRelease)` (lines 243–257): nothing to stop unless playing;
a running sequence is stopped via `_stopArpeggiator`, a sustained voice is
released (audio-graph work); then the playing flag and held note clear. -/
def stopNote (s : ModState) : ModState :=
  if !s.isPlaying then s
  else
    let s1 := if s.arp.active && s.arp.intervalId.isSome then stopArpeggiator s else s
    { s1 with isPlaying := false, activeNote := none }

/-- `toggleEffect('arpeggiator', isActive)` (lines 638–697): an unchanged
stored flag returns immediately; turning on starts the timer only when a
note is held and no handle exists; turning off stops any running timer and
falls back to a sustained voice when a note is still held. -/
def toggleArpeggiator (isActive : Bool) (s : ModState) : ModState :=
  if s.paramActive = isActive then s
  else
    let s0 := { s with paramActive := isActive, arp := { s.arp with active := isActive } }
    if isActive then
      match s0.activeNote, s0.arp.intervalId with
      | some note, none =>
        let s1 := { s0 with arp := { s0.arp with baseNote := some note, currentStep := 0 } }
        let s2 := startArpeggiator s1
        { s2 with isPlaying := true }
      | _, _ => s0
    else
      if s0.arp.intervalId.isSome then
        let s1 := stopArpeggiator s0
        if s1.activeNote.isSome then { s1 with isPlaying := true }
        else { s1 with isPlaying := false }
      else s0

/-- `setParameter('effects.arpeggiator', 'rate', r)` (lines 588–598): the
rate is stored; when initialized and a timer is running, the timer is
stopped and re-armed only if a note is still held.  (When uninitialized the
call stores the parameter and applies nothing.) -/
def setArpRate (r : ℚ) (s : ModState) : ModState :=
  let s0 := { s with arp := { s.arp with rate := r } }
  if !s0.isInitialized then s0
  else if s0.arp.active && s0.arp.intervalId.isSome then
    let s1 := stopArpeggiator s0
    if s1.activeNote.isSome then
      let s2 := startArpeggiator s1
      { s2 with isPlaying := true }
    else s1
  else s0

/-- `setParameter('effects.arpeggiator', 'pattern', pat)` (lines 599–603). -/
def setArpPattern (pat : List ℤ) (s : ModState) : ModState :=
  { s with arp := { s.arp with pattern := pat } }

/-- `applyPresetAudio` (lines 804–860) as it affects the arpeggiator: the
merged parameters replace the store (syncing `arp.rate`/`arp.pattern` and
the stored active flag), then `setParameter` re-applies rate and pattern,
then `_applyCurrentToggleStates` calls `toggleEffect` with the stored flag
(which early-returns, the stored flag having just been set to that value). -/
def applyPresetArp (isActive : Bool) (r : ℚ) (pat : List ℤ) (s : ModState) : ModState :=
  let s0 := { s with paramActive := isActive,
                     arp := { s.arp with rate := r, pattern := pat } }
  let s1 := setArpRate r s0
  let s2 := setArpPattern pat s1
  toggleArpeggiator isActive s2

/-- One firing of the armed interval callback: runs `_arpStep`; a cleared
interval no longer fires. -/
def timerFire (s : ModState) : ModState :=
  if s.arp.intervalId.isSome then arpStep s else s

/-- `_initializeAudio()` succeeding (timer-neutral:
`_applyCurrentToggleStates` compares each stored flag with itself and
early-returns). -/
def initializeAudio (s : ModState) : ModState := { s with isInitialized := true }

/-- `dispose()` (lines 931–965): `_stopArpeggiator()` then `stopNote(false)`. -/
def disposeModule (s : ModState) : ModState := stopNote (stopArpeggiator s)

/-- Every operation of the module that can touch the arpeggiator timer. -/
inductive SoundOp where
  | initAudio
  | startNote (note : String)
  | stopNote
  | toggleArp (isActive : Bool)
  | setRate (r : ℚ)
  | setPattern (pat : List ℤ)
  | applyPreset (isActive : Bool) (r : ℚ) (pat : List ℤ)
  | timerFire
  | dispose
deriving DecidableEq, Repr

def applySoundOp : SoundOp → ModState → ModState
  | .initAudio => initializeAudio
  | .startNote note => startNote note
  | .stopNote => stopNote
  | .toggleArp b => toggleArpeggiator b
  | .setRate r => setArpRate r
  | .setPattern pat => setArpPattern pat
  | .applyPreset b r pat => applyPresetArp b r pat
  | .timerFire => timerFire
  | .dispose => disposeModule

/-- The constructor's state: uninitialized, silent, no timer armed. -/
def initState : ModState :=
  { isInitialized := false, isPlaying := false, activeNote := none,
    paramActive := false,
    arp := { active := false, intervalId := none, rate := 8,
             pattern := [0, 4, 7], currentStep := 0, baseNote := none },
    timers := [], nextTimer := 0 }

/-- States of the sound module reachable through its operations. -/
inductive Reachable : ModState → Prop where
  | init : Reachable initState
  | step (s : ModState) (op : SoundOp) : Reachable s → Reachable (applySoundOp op s)

/-- The single-owner timer invariant: the armed timers are exactly the one
named by the interval handle (none when the handle is null). -/
def TimerAgree (s : ModState) : Prop := s.timers = s.arp.intervalId.toList

/-! ### Arpeggiator step frequency (C2) -/

/-- `this.semitoneRatio = Math.pow(2, 1/12)` (line 60). -/
noncomputable def semitoneRatio : ℝ := (2 : ℝ) ^ ((1 : ℝ) / 12)

/-- The frequency computed by `_arpStep()` (lines 494–510):
`baseFrequency * Math.pow(semitoneRatio, pattern[currentStep % pattern.length])`;
`none` models the guard path (inactive arpeggiator, empty pattern, or
missing/unknown base note) on which the sequencer stops itself instead of
playing. -/
noncomputable def arpStepFrequency (arp : ArpState) : Option ℝ :=
  match arp.baseNote with
  | none => none
  | some note =>
    match noteFrequency note with
    | none => none
    | some baseFrequency =>
      if arp.active = true ∧ arp.pattern ≠ [] then
        let semitoneOffset := arp.pattern.getD (arp.currentStep % arp.pattern.length) 0
        some ((baseFrequency : ℝ) * semitoneRatio ^ ((semitoneOffset : ℤ) : ℝ))
      else none

/-- The spec's scenario: pattern `[0, 4, 7]` at rate 8, base note A4, about
to play step `k`. -/
def scenarioArp (k : ℕ) : ArpState :=
  { active := true, intervalId := none, rate := 8, pattern := [0, 4, 7],
    currentStep := k, baseNote := some "A4" }

/-! ### Spectral band analysis (C8) -/

/-- The three band levels returned by `getAudioLevels()`. -/
structure Levels where
  bass : ℝ
  mid : ℝ
  high : ℝ

/-- `bassEndIndex = min(bufferLength-1, floor(250/nyquist*bufferLength))`
with `nyquist = sampleRate/2` (lines 752–758). -/
def bassEndIndex (sampleRate : ℚ) (bufferLength : ℕ) : ℕ :=
  min (bufferLength - 1) (⌊(250 / (sampleRate / 2) * bufferLength : ℚ)⌋).toNat

def midStartIndex (sampleRate : ℚ) (bufferLength : ℕ) : ℕ :=
  bassEndIndex sampleRate bufferLength + 1

def midEndIndex (sampleRate : ℚ) (bufferLength : ℕ) : ℕ :=
  min (bufferLength - 1) (⌊(2000 / (sampleRate / 2) * bufferLength : ℚ)⌋).toNat

def highStartIndex (sampleRate : ℚ) (bufferLength : ℕ) : ℕ :=
  midEndIndex sampleRate bufferLength + 1

def highEndIndex (sampleRate : ℚ) (bufferLength : ℕ) : ℕ :=
  min (bufferLength - 1) (⌊(6000 / (sampleRate / 2) * bufferLength : ℚ)⌋).toNat

/-- The per-bin accumulation loop of `getAudioLevels` (lines 768–777), bass
branch: bins with `i <= bassEndIndex` are summed into the bass band. -/
def bassSum (sampleRate : ℚ) (bufferLength : ℕ) (data : ℕ → ℕ) : ℕ :=
  ∑ i in Finset.range bufferLength,
    if i ≤ bassEndIndex sampleRate bufferLength then data i else 0

def bassCount (sampleRate : ℚ) (bufferLength : ℕ) : ℕ :=
  ∑ i in Finset.range bufferLength,
    if i ≤ bassEndIndex sampleRate bufferLength then 1 else 0

/-- Mid branch of the loop: taken only when the bass branch is not. -/
def midSum (sampleRate : ℚ) (bufferLength : ℕ) (data : ℕ → ℕ) : ℕ :=
  ∑ i in Finset.range bufferLength,
    if i ≤ bassEndIndex sampleRate bufferLength then 0
    else if midStartIndex sampleRate bufferLength ≤ i
        ∧ i ≤ midEndIndex sampleRate bufferLength then data i
    else 0

def midCount (sampleRate : ℚ) (bufferLength : ℕ) : ℕ :=
  ∑ i in Finset.range bufferLength,
    if i ≤ bassEndIndex sampleRate bufferLength then 0
    else if midStartIndex sampleRate bufferLength ≤ i
        ∧ i ≤ midEndIndex sampleRate bufferLength then 1
    else 0

/-- High branch of the loop: taken only when bass and mid branches are not. -/
def highSum (sampleRate : ℚ) (bufferLength : ℕ) (data : ℕ → ℕ) : ℕ :=
  ∑ i in Finset.range bufferLength,
    if i ≤ bassEndIndex sampleRate bufferLength then 0
    else if midStartIndex sampleRate bufferLength ≤ i
        ∧ i ≤ midEndIndex sampleRate bufferLength then 0
    else if highStartIndex sampleRate bufferLength ≤ i
        ∧ i ≤ highEndIndex sampleRate bufferLength then data i
    else 0

def highCount (sampleRate : ℚ) (bufferLength : ℕ) : ℕ :=
  ∑ i in Finset.range bufferLength,
    if i ≤ bassEndIndex sampleRate bufferLength then 0
    else if midStartIndex sampleRate bufferLength ≤ i
        ∧ i ≤ midEndIndex sampleRate bufferLength then 0
    else if highStartIndex sampleRate bufferLength ≤ i
        ∧ i ≤ highEndIndex sampleRate bufferLength then 1
    else 0

/-- `getAudioLevels()` (lines 737–800) on an analyzer buffer of
`bufferLength` bins holding byte values `data i` (0–255): each band's
average is normalized by 255, raised to a band exponent
(`Math.pow`, hence real `rpow`), scaled by a band gain and clamped to
`[0, 1]`; `epsilon = 1e-6` guards the count division. -/
noncomputable def getAudioLevels (sampleRate : ℚ) (bufferLength : ℕ)
    (data : ℕ → ℕ) : Levels :=
  let epsilon : ℝ := 1 / 1000000
  let bassAvg : ℝ := (bassSum sampleRate bufferLength data : ℝ)
    / ((bassCount sampleRate bufferLength : ℝ) + epsilon) / 255
  let midAvg : ℝ := (midSum sampleRate bufferLength data : ℝ)
    / ((midCount sampleRate bufferLength : ℝ) + epsilon) / 255
  let highAvg : ℝ := (highSum sampleRate bufferLength data : ℝ)
    / ((highCount sampleRate bufferLength : ℝ) + epsilon) / 255
  { bass := min 1 (max 0 (bassAvg ^ (0.8 : ℝ) * 1.8))
    mid := min 1 (max 0 (midAvg ^ (0.9 : ℝ) * 1.4))
    high := min 1 (max 0 (highAvg ^ (0.7 : ℝ) * 2.2)) }

end SoundModule

namespace ProjectionM

/-! ### 4D→3D projection formulas (C6, C7), as emitted by
`ProjectionManager.js` into the fragment shader.  GLSL float vectors are
modelled over `ℝ`; the single partial operation is `normalize`, undefined on
the zero vector. -/

@[ext]
structure Vec3 where
  x : ℝ
  y : ℝ
  z : ℝ

@[ext]
structure Vec4 where
  x : ℝ
  y : ℝ
  z : ℝ
  w : ℝ

/-- GLSL swizzle `p.xyz`. -/
def Vec4.xyz (p : Vec4) : Vec3 := ⟨p.x, p.y, p.z⟩

/-- GLSL scalar–vector product `a * v`. -/
noncomputable def Vec3.scale (a : ℝ) (v : Vec3) : Vec3 := ⟨a * v.x, a * v.y, a * v.z⟩

/-- GLSL `mix(a, b, t) = a·(1−t) + b·t`, componentwise. -/
noncomputable def mix3 (a b : Vec3) (t : ℝ) : Vec3 :=
  ⟨a.x * (1 - t) + b.x * t, a.y * (1 - t) + b.y * t, a.z * (1 - t) + b.z * t⟩

/-- GLSL `clamp(x, lo, hi) = min(max(x, lo), hi)`. -/
noncomputable def clampR (x lo hi : ℝ) : ℝ := min hi (max lo x)

/-- GLSL `smoothstep(e0, e1, x)`. -/
noncomputable def smoothstepR (e0 e1 x : ℝ) : ℝ :=
  let t := clampR ((x - e0) / (e1 - e0)) 0 1
  t * t * (3 - 2 * t)

/-- GLSL `sign`. -/
noncomputable def glslSign (x : ℝ) : ℝ := if 0 < x then 1 else if x < 0 then -1 else 0

/-- GLSL `length(v)`. -/
noncomputable def norm3 (v : Vec3) : ℝ := Real.sqrt (v.x ^ 2 + v.y ^ 2 + v.z ^ 2)

/-- GLSL `normalize(v) = v / length(v)`.  The GLSL specification leaves the
zero vector undefined (hardware computes `0 * inversesqrt(0) = 0 * Inf =
NaN`); the undefined case is modelled as `none`, and `none` propagates
through the remaining vector arithmetic exactly as NaN does. -/
noncomputable def glslNormalize (v : Vec3) : Option Vec3 :=
  if v.x = 0 ∧ v.y = 0 ∧ v.z = 0 then none
  else some (Vec3.scale (norm3 v)⁻¹ v)

/-- `PerspectiveProjection.getShaderCode()` (part_000 lines 50–77), with the
constructor's clamp `viewDistance = max(0.1, viewDistance)` (line 44); the
shipped instance passes `viewDistance = 2.5`. -/
noncomputable def perspectiveProject (viewDistance morphFactor audioMid : ℝ)
    (p : Vec4) : Vec3 :=
  let baseDistance := max 0.1 viewDistance
  let dynamicDistance := max 0.2 (baseDistance * (1 + morphFactor * 0.4 - audioMid * 0.3))
  let denominator := dynamicDistance + p.w
  let w_factor := dynamicDistance / max 0.1 denominator
  Vec3.scale w_factor p.xyz

/-- `OrthographicProjection.getShaderCode()` (part_000 lines 89–116). -/
noncomputable def orthographicProject (morphFactor audioMid : ℝ) (p : Vec4) : Vec3 :=
  let orthoP := p.xyz
  let basePerspectiveDistance : ℝ := 2.5
  let dynamicPerspectiveDistance :=
    max 0.2 (basePerspectiveDistance * (1 - audioMid * 0.4))
  let perspDenominator := dynamicPerspectiveDistance + p.w
  let persp_w_factor := dynamicPerspectiveDistance / max 0.1 perspDenominator
  let perspP := Vec3.scale persp_w_factor p.xyz
  let morphT := smoothstepR 0 1 morphFactor
  mix3 orthoP perspP morphT

/-- The audio-modulated pole W of `StereographicProjection.getShaderCode()`
(part_000 lines 144–147). -/
noncomputable def dynamicPoleW (basePoleW audioHigh : ℝ) : ℝ :=
  let d := basePoleW + audioHigh * 0.3 * glslSign basePoleW
  glslSign d * max 0.1 |d|

/-- `StereographicProjection.getShaderCode()` (part_000 lines 137–173); the
shipped instance passes `basePoleW = -1.5`.  Near the pole
(`|denominator| < 0.01`) the code returns `normalize(p.xyz) * 1000.0`, then
blends toward orthographic with the scaled smoothstepped morph factor. -/
noncomputable def stereographicProject (basePoleW audioHigh morphFactor : ℝ)
    (p : Vec4) : Option Vec3 :=
  let pole := dynamicPoleW basePoleW audioHigh
  let denominator := p.w - pole
  let epsilon : ℝ := 0.01
  let projectedP : Option Vec3 :=
    if |denominator| < epsilon then
      (glslNormalize p.xyz).map (fun u => Vec3.scale 1000 u)
    else some (Vec3.scale ((-pole) / denominator) p.xyz)
  let morphT := smoothstepR 0 1 (morphFactor * 0.8)
  let orthoP := p.xyz
  projectedP.map (fun q => mix3 q orthoP morphT)

end ProjectionM

namespace SoundModule

theorem timerAgree_stopArpeggiator {s : ModState} (h : TimerAgree s) :
    TimerAgree (stopArpeggiator s) := by
  unfold TimerAgree stopArpeggiator clearIntervalM at *
  cases hid : s.arp.intervalId with
  | none => simpa [hid] using h
  | some id =>
    rw [hid] at h
    simp [h]

theorem stopArpeggiator_intervalId (s : ModState) :
    (stopArpeggiator s).arp.intervalId = none := by
  unfold stopArpeggiator clearIntervalM
  cases hid : s.arp.intervalId <;> simp [hid]

theorem arpStep_fields {s : ModState} (hid : s.arp.intervalId = none) :
    (arpStep s).timers = s.timers ∧ (arpStep s).arp.intervalId = none
    ∧ (arpStep s).nextTimer = s.nextTimer := by
  unfold arpStep stopArpeggiator
  split
  · simp [hid]
  · simp [hid]

theorem timerAgree_startArpeggiator {s : ModState} (h : TimerAgree s) :
    TimerAgree (startArpeggiator s) := by
  unfold startArpeggiator
  split
  · exact h
  · rename_i hguard
    have hid : s.arp.intervalId = none := by
      cases hx : s.arp.intervalId with
      | none => rfl
      | some id => exact absurd (by simp [hx]) hguard
    obtain ⟨ht, hi, hn⟩ := arpStep_fields hid
    unfold TimerAgree at h ⊢
    rw [hid] at h
    simp [setIntervalM, ht, h]

theorem timerAgree_arpStep {s : ModState} (h : TimerAgree s) :
    TimerAgree (arpStep s) := by
  unfold arpStep
  split
  · exact h
  · exact timerAgree_stopArpeggiator h

theorem timerAgree_startNote (note : String) {s : ModState} (h : TimerAgree s) :
    TimerAgree (startNote note s) := by
  unfold startNote
  split
  · exact h
  · dsimp only
    split
    · split
      · exact timerAgree_startArpeggiator h
      · exact h
    · exact h

theorem timerAgree_stopNote {s : ModState} (h : TimerAgree s) :
    TimerAgree (stopNote s) := by
  unfold stopNote
  split
  · exact h
  · dsimp only
    split
    · exact timerAgree_stopArpeggiator h
    · exact h

theorem timerAgree_toggleArpeggiator (isActive : Bool) {s : ModState}
    (h : TimerAgree s) : TimerAgree (toggleArpeggiator isActive s) := by
  unfold toggleArpeggiator
  split
  · exact h
  · dsimp only
    split
    · split
      · exact timerAgree_startArpeggiator h
      · exact h
    · split
      · split
        · exact timerAgree_stopArpeggiator h
        · exact timerAgree_stopArpeggiator h
      · exact h

theorem timerAgree_setArpRate (r : ℚ) {s : ModState} (h : TimerAgree s) :
    TimerAgree (setArpRate r s) := by
  unfold setArpRate
  dsimp only
  split
  · exact h
  · split
    · split
      · exact timerAgree_startArpeggiator (timerAgree_stopArpeggiator h)
      · exact timerAgree_stopArpeggiator h
    · exact h

theorem timerAgree_setArpPattern (pat : List ℤ) {s : ModState} (h : TimerAgree s) :
    TimerAgree (setArpPattern pat s) := h

theorem timerAgree_applyPresetArp (isActive : Bool) (r : ℚ) (pat : List ℤ)
    {s : ModState} (h : TimerAgree s) : TimerAgree (applyPresetArp isActive r pat s) := by
  unfold applyPresetArp
  exact timerAgree_toggleArpeggiator isActive
    (timerAgree_setArpPattern pat (timerAgree_setArpRate r h))

theorem timerAgree_timerFire {s : ModState} (h : TimerAgree s) :
    TimerAgree (timerFire s) := by
  unfold timerFire
  split
  · exact timerAgree_arpStep h
  · exact h

theorem timerAgree_applySoundOp (op : SoundOp) {s : ModState} (h : TimerAgree s) :
    TimerAgree (applySoundOp op s) := by
  cases op with
  | initAudio => exact h
  | startNote note => exact timerAgree_startNote note h
  | stopNote => exact timerAgree_stopNote h
  | toggleArp b => exact timerAgree_toggleArpeggiator b h
  | setRate r => exact timerAgree_setArpRate r h
  | setPattern pat => exact timerAgree_setArpPattern pat h
  | applyPreset b r pat => exact timerAgree_applyPresetArp b r pat h
  | timerFire => exact timerAgree_timerFire h
  | dispose => exact timerAgree_stopNote (timerAgree_stopArpeggiator h)

/-! ### Band-analysis helper lemmas (C8) -/

theorem bassSum_const255 (sampleRate : ℚ) (n : ℕ) :
    bassSum sampleRate n (fun _ => 255) = 255 * bassCount sampleRate n := by
  unfold bassSum bassCount
  rw [Finset.mul_sum]
  refine Finset.sum_congr rfl fun i _ => ?_
  split <;> simp

theorem midSum_const255 (sampleRate : ℚ) (n : ℕ) :
    midSum sampleRate n (fun _ => 255) = 255 * midCount sampleRate n := by
  unfold midSum midCount
  rw [Finset.mul_sum]
  refine Finset.sum_congr rfl fun i _ => ?_
  split
  · simp
  · split <;> simp

theorem highSum_const255 (sampleRate : ℚ) (n : ℕ) :
    highSum sampleRate n (fun _ => 255) = 255 * highCount sampleRate n := by
  unfold highSum highCount
  rw [Finset.mul_sum]
  refine Finset.sum_congr rfl fun i _ => ?_
  split
  · simp
  · split
    · simp
    · split <;> simp

theorem bassSum_zero (sampleRate : ℚ) (n : ℕ) :
    bassSum sampleRate n (fun _ => 0) = 0 := by
  unfold bassSum
  refine Finset.sum_eq_zero fun i _ => ?_
  split <;> rfl

theorem midSum_zero (sampleRate : ℚ) (n : ℕ) :
    midSum sampleRate n (fun _ => 0) = 0 := by
  unfold midSum
  refine Finset.sum_eq_zero fun i _ => ?_
  split
  · rfl
  · split <;> rfl

theorem highSum_zero (sampleRate : ℚ) (n : ℕ) :
    highSum sampleRate n (fun _ => 0) = 0 := by
  unfold highSum
  refine Finset.sum_eq_zero fun i _ => ?_
  split
  · rfl
  · split
    · rfl
    · split <;> rfl

theorem one_le_bassCount (sampleRate : ℚ) (n : ℕ) (hn : 1 ≤ n) :
    1 ≤ bassCount sampleRate n := by
  unfold bassCount
  have h0 : (0 : ℕ) ∈ Finset.range n := Finset.mem_range.mpr hn
  have h := Finset.single_le_sum
    (f := fun i => if i ≤ bassEndIndex sampleRate n then (1 : ℕ) else 0)
    (fun i _ => Nat.zero_le _) h0
  simpa using h

/-- An all-255 band of at least one bin saturates to level exactly 1 after
the exponent, gain and clamp. -/
theorem band_level_saturates (c : ℕ) (e g : ℝ) (hc : 1 ≤ c) (he : 0 < e)
    (he1 : e ≤ 1) (hg : 1.4 ≤ g) :
    min 1 (max 0 ((((255 * c : ℕ) : ℝ) / ((c : ℝ) + 1 / 1000000) / 255) ^ e * g)) = 1 := by
  have hc' : (1 : ℝ) ≤ (c : ℝ) := by exact_mod_cast hc
  have hden : (0 : ℝ) < (c : ℝ) + 1 / 1000000 := by linarith
  have hx : (((255 * c : ℕ) : ℝ) / ((c : ℝ) + 1 / 1000000) / 255)
      = (c : ℝ) / ((c : ℝ) + 1 / 1000000) := by
    push_cast
    field_simp
    ring
  rw [hx]
  set x := (c : ℝ) / ((c : ℝ) + 1 / 1000000) with hxdef
  have hx1 : x ≤ 1 := by
    rw [hxdef, div_le_one hden]
    linarith
  have hxlb : (24 / 25 : ℝ) ≤ x := by
    rw [hxdef, div_le_div_iff (by norm_num) hden]
    linarith
  have hxpos : (0 : ℝ) < x := by
    rw [hxdef]
    positivity
  have hpow : x ≤ x ^ e := by
    have h := Real.rpow_le_rpow_of_exponent_ge hxpos hx1 he1
    rwa [Real.rpow_one] at h
  have hxe : (24 / 25 : ℝ) ≤ x ^ e := le_trans hxlb hpow
  have hmul : (24 / 25 : ℝ) * 1.4 ≤ x ^ e * g :=
    mul_le_mul hxe hg (by norm_num) (by linarith)
  have hge1 : (1 : ℝ) ≤ x ^ e * g := by linarith
  rw [max_eq_right (by linarith : (0 : ℝ) ≤ x ^ e * g), min_eq_left hge1]

/-- An all-zero band computes to level exactly 0. -/
theorem band_level_zero (c : ℕ) (e g : ℝ) (he : e ≠ 0) :
    min 1 (max 0 ((((0 : ℕ) : ℝ) / ((c : ℝ) + 1 / 1000000) / 255) ^ e * g)) = 0 := by
  rw [show (((0 : ℕ) : ℝ) / ((c : ℝ) + 1 / 1000000) / 255) = 0 by norm_num]
  rw [Real.zero_rpow he, zero_mul]
  norm_num

end SoundModule

namespace ProjectionM

/-! ### Euclidean-norm helper lemmas for the projection formulas (C6) -/

theorem norm3_nonneg (v : Vec3) : 0 ≤ norm3 v := Real.sqrt_nonneg _

theorem norm3_scale (a : ℝ) (v : Vec3) : norm3 (Vec3.scale a v) = |a| * norm3 v := by
  unfold norm3 Vec3.scale
  rw [show (a * v.x) ^ 2 + (a * v.y) ^ 2 + (a * v.z) ^ 2
      = a ^ 2 * (v.x ^ 2 + v.y ^ 2 + v.z ^ 2) by ring]
  rw [Real.sqrt_mul (sq_nonneg a), Real.sqrt_sq_eq_abs]

theorem norm3_pos (v : Vec3) (h : ¬(v.x = 0 ∧ v.y = 0 ∧ v.z = 0)) : 0 < norm3 v := by
  unfold norm3
  apply Real.sqrt_pos.mpr
  rcases not_and_or.mp h with hx | hyz
  · have h2 : 0 < v.x ^ 2 := lt_of_le_of_ne (sq_nonneg _) (fun hz => hx (by nlinarith [hz.symm]))
    nlinarith [sq_nonneg v.y, sq_nonneg v.z]
  · rcases not_and_or.mp hyz with hy | hz
    · have h2 : 0 < v.y ^ 2 := lt_of_le_of_ne (sq_nonneg _) (fun hz => hy (by nlinarith [hz.symm]))
      nlinarith [sq_nonneg v.x, sq_nonneg v.z]
    · have h2 : 0 < v.z ^ 2 := lt_of_le_of_ne (sq_nonneg _) (fun hz0 => hz (by nlinarith [hz0.symm]))
      nlinarith [sq_nonneg v.x, sq_nonneg v.y]

theorem inner3_le_norm (u v : Vec3) :
    u.x * v.x + u.y * v.y + u.z * v.z ≤ norm3 u * norm3 v := by
  have hcs : (u.x * v.x + u.y * v.y + u.z * v.z) ^ 2
      ≤ (u.x ^ 2 + u.y ^ 2 + u.z ^ 2) * (v.x ^ 2 + v.y ^ 2 + v.z ^ 2) := by
    nlinarith [sq_nonneg (u.x * v.y - u.y * v.x), sq_nonneg (u.x * v.z - u.z * v.x),
      sq_nonneg (u.y * v.z - u.z * v.y)]
  calc u.x * v.x + u.y * v.y + u.z * v.z
      ≤ |u.x * v.x + u.y * v.y + u.z * v.z| := le_abs_self _
    _ = Real.sqrt ((u.x * v.x + u.y * v.y + u.z * v.z) ^ 2) :=
        (Real.sqrt_sq_eq_abs _).symm
    _ ≤ Real.sqrt ((u.x ^ 2 + u.y ^ 2 + u.z ^ 2) * (v.x ^ 2 + v.y ^ 2 + v.z ^ 2)) :=
        Real.sqrt_le_sqrt hcs
    _ = norm3 u * norm3 v := by
        unfold norm3
        rw [Real.sqrt_mul (by positivity)]

theorem norm3_add_le (u v : Vec3) :
    norm3 ⟨u.x + v.x, u.y + v.y, u.z + v.z⟩ ≤ norm3 u + norm3 v := by
  have hin := inner3_le_norm u v
  have hA : (norm3 u) ^ 2 = u.x ^ 2 + u.y ^ 2 + u.z ^ 2 := Real.sq_sqrt (by positivity)
  have hB : (norm3 v) ^ 2 = v.x ^ 2 + v.y ^ 2 + v.z ^ 2 := Real.sq_sqrt (by positivity)
  have key : (u.x + v.x) ^ 2 + (u.y + v.y) ^ 2 + (u.z + v.z) ^ 2
      ≤ (norm3 u + norm3 v) ^ 2 := by
    nlinarith [hin, hA, hB]
  calc norm3 ⟨u.x + v.x, u.y + v.y, u.z + v.z⟩
      = Real.sqrt ((u.x + v.x) ^ 2 + (u.y + v.y) ^ 2 + (u.z + v.z) ^ 2) := rfl
    _ ≤ Real.sqrt ((norm3 u + norm3 v) ^ 2) := Real.sqrt_le_sqrt key
    _ = norm3 u + norm3 v :=
        Real.sqrt_sq (add_nonneg (norm3_nonneg u) (norm3_nonneg v))

theorem norm3_mix3_le (a b : Vec3) (t : ℝ) (h0 : 0 ≤ t) (h1 : t ≤ 1) :
    norm3 (mix3 a b t) ≤ (1 - t) * norm3 a + t * norm3 b := by
  have hmix : mix3 a b t
      = ⟨(Vec3.scale (1 - t) a).x + (Vec3.scale t b).x,
         (Vec3.scale (1 - t) a).y + (Vec3.scale t b).y,
         (Vec3.scale (1 - t) a).z + (Vec3.scale t b).z⟩ := by
    unfold mix3 Vec3.scale
    ext <;> dsimp <;> ring
  rw [hmix]
  calc norm3 ⟨(Vec3.scale (1 - t) a).x + (Vec3.scale t b).x,
        (Vec3.scale (1 - t) a).y + (Vec3.scale t b).y,
        (Vec3.scale (1 - t) a).z + (Vec3.scale t b).z⟩
      ≤ norm3 (Vec3.scale (1 - t) a) + norm3 (Vec3.scale t b) := norm3_add_le _ _
    _ = |1 - t| * norm3 a + |t| * norm3 b := by rw [norm3_scale, norm3_scale]
    _ = (1 - t) * norm3 a + t * norm3 b := by
        rw [abs_of_nonneg (by linarith), abs_of_nonneg h0]

theorem smoothstepR_nonneg (e0 e1 x : ℝ) : 0 ≤ smoothstepR e0 e1 x := by
  unfold smoothstepR clampR
  dsimp only
  set t := min 1 (max 0 ((x - e0) / (e1 - e0))) with htdef
  have h0 : 0 ≤ t := le_min (by norm_num) (le_max_left _ _)
  have h1 : t ≤ 1 := min_le_left _ _
  nlinarith

theorem smoothstepR_le_one (e0 e1 x : ℝ) : smoothstepR e0 e1 x ≤ 1 := by
  unfold smoothstepR clampR
  dsimp only
  set t := min 1 (max 0 ((x - e0) / (e1 - e0))) with htdef
  have h0 : 0 ≤ t := le_min (by norm_num) (le_max_left _ _)
  have h1 : t ≤ 1 := min_le_left _ _
  nlinarith [sq_nonneg (1 - t)]

/-- The shipped stereographic pole with silent high band sits at `-1.5`. -/
theorem dynamicPoleW_shipped : dynamicPoleW (-1.5) 0 = -1.5 := by
  unfold dynamicPoleW glslSign
  norm_num
  rw [abs_of_nonneg (by norm_num : (0 : ℝ) ≤ 3 / 2)]
  exact max_eq_right (by norm_num)

end ProjectionM

/-! ## Claim theorems (C1, C10) -/

/-! ## Claim theorems (C1, C10) -/

/-- C1: for every input (sound parameters, audio levels, glitch toggle), the
audio-to-visual mapper `mapSoundToVisuals` computes exactly the spec's
reference formulas for morphFactor, glitchIntensity, rotationSpeed,
dimension, gridDensity, and selects projectionMethod by the spec's priority
chain. -/
theorem mapSoundToVisuals_matches_spec (soundParams : SoundParams)
    (audioLevels : AudioLevels) (glitchEnabled xyPadOn : Bool) (frequency : Option ℚ) :
    (UiInteractions.mapSoundToVisuals soundParams audioLevels glitchEnabled xyPadOn
        frequency).morphFactor
        = UiInteractions.specMorphFactor soundParams audioLevels
    ∧ (UiInteractions.mapSoundToVisuals soundParams audioLevels glitchEnabled xyPadOn
        frequency).glitchIntensity
        = UiInteractions.specGlitchIntensity soundParams audioLevels glitchEnabled
    ∧ (UiInteractions.mapSoundToVisuals soundParams audioLevels glitchEnabled xyPadOn
        frequency).rotationSpeed
        = UiInteractions.specRotationSpeed soundParams audioLevels
    ∧ (UiInteractions.mapSoundToVisuals soundParams audioLevels glitchEnabled xyPadOn
        frequency).dimension
        = UiInteractions.specDimension soundParams audioLevels
    ∧ (UiInteractions.mapSoundToVisuals soundParams audioLevels glitchEnabled xyPadOn
        frequency).gridDensity
        = UiInteractions.specGridDensity audioLevels
    ∧ (UiInteractions.mapSoundToVisuals soundParams audioLevels glitchEnabled xyPadOn
        frequency).projectionMethod
        = UiInteractions.specProjectionName soundParams := by
  unfold UiInteractions.mapSoundToVisuals UiInteractions.specMorphFactor
    UiInteractions.specGlitchIntensity UiInteractions.specRotationSpeed
    UiInteractions.specDimension UiInteractions.specGridDensity
    UiInteractions.specProjectionName
  refine ⟨by ring_nf, rfl, rfl, by ring_nf, rfl, ?_⟩
  simp only [Bool.and_eq_true, decide_eq_true_eq]

/-- C10: `getPresetNames()` returns exactly the registered preset names with
`'default'` filtered out — for the shipped store,
`['vaporwave', 'ambient_drone', 'synthwave_lead', 'grimoire_pulse']` — even
though `'default'` is present in the store and `applyPresetAudio('default')`
is accepted. -/
theorem getPresetNames_filters_default :
    SoundModule.getPresetNames
        = ["vaporwave", "ambient_drone", "synthwave_lead", "grimoire_pulse"]
    ∧ "default" ∈ SoundModule.presetKeys
    ∧ SoundModule.applyPresetAudioAccepts "default" = true := by
  refine ⟨rfl, ?_, rfl⟩
  simp [SoundModule.presetKeys, SoundModule.getPresetsDefinition]

/-- C3 (code bug): `u_morphFactor` is a known uniform name of the engine,
yet after `start()` it is not a member of the dirty set — `start()` inserts
the raw state key `morphFactor` instead, whose GPU location never resolves —
so the first render tick against the real shader does not upload
`u_morphFactor` and leaves the `morphFactor` entry dirty forever. -/
theorem start_dirty_set_misses_morphFactor :
    "u_morphFactor" ∈ HypercubeCoreM.knownUniformNames
    ∧ "u_morphFactor" ∉ HypercubeCoreM.startDirtySet
    ∧ "u_morphFactor" ∉ (HypercubeCoreM.setUniformsTick HypercubeCoreM.shaderResolver
        HypercubeCoreM.startDirtySet).uploaded
    ∧ "morphFactor" ∈ (HypercubeCoreM.setUniformsTick HypercubeCoreM.shaderResolver
        HypercubeCoreM.startDirtySet).dirty := by
  decide

/-- C4 (code bug): on a freshly created voice — whose envelope gain node is
connected only to the master bus, so it has no delay and no reverb edge —
the delay leg's `sourceNode.disconnect(delayNode)` throws
(`InvalidAccessError`: no such connection) and the single try/catch
wrapping both legs abandons the routine, so `_connectEffectsToNode` is a
no-op on every voice without a delay edge, for every flag setting:
toggling delay or reverb on never connects the active bus, contradicting
the claim's (and the spec's) "reconnects it iff that effect's active flag
is set" and the code's own "Always try disconnecting first" intent. -/
theorem connectEffects_fresh_voice_never_connected :
    (∀ (flags : SoundModule.RoutingFlags) (r : ℕ),
        SoundModule.connectEffectsToNode flags ⟨0, r⟩ = ⟨0, r⟩)
    ∧ SoundModule.toggleEffect .reverb true ⟨⟨false, false⟩, ⟨0, 0⟩⟩
        = ⟨⟨false, true⟩, ⟨0, 0⟩⟩
    ∧ SoundModule.toggleEffect .delay true ⟨⟨false, false⟩, ⟨0, 0⟩⟩
        = ⟨⟨true, false⟩, ⟨0, 0⟩⟩ :=
  ⟨fun _ _ => rfl, rfl, rfl⟩

/-- C5: updating parameters with a geometryType (or projectionMethod)
different from the current one sets the rebuild flag; the next frame tick
performs exactly one program relink and clears the flag (a further tick
relinks no more), and on relink failure the tick halts the render loop and
invokes the error callback. -/
theorem geometry_change_triggers_single_relink (s : HypercubeCoreM.CoreState)
    (g p : String) (hg : g ≠ s.geometryType) (hp : p ≠ s.projectionMethod) :
    (HypercubeCoreM.updateParametersGP (some g) none s).needsShaderUpdate = true
    ∧ (HypercubeCoreM.updateParametersGP none (some p) s).needsShaderUpdate = true
    ∧ (HypercubeCoreM.frameTick true
        (HypercubeCoreM.updateParametersGP (some g) none s)).relinkCount
        = s.relinkCount + 1
    ∧ (HypercubeCoreM.frameTick true
        (HypercubeCoreM.updateParametersGP (some g) none s)).needsShaderUpdate = false
    ∧ (HypercubeCoreM.frameTick true (HypercubeCoreM.frameTick true
        (HypercubeCoreM.updateParametersGP (some g) none s))).relinkCount
        = s.relinkCount + 1
    ∧ (HypercubeCoreM.frameTick false
        (HypercubeCoreM.updateParametersGP (some g) none s)).isRendering = false
    ∧ (HypercubeCoreM.frameTick false
        (HypercubeCoreM.updateParametersGP (some g) none s)).errorCalled = true := by
  have hg' : s.geometryType ≠ g := fun h => hg h.symm
  have hp' : s.projectionMethod ≠ p := fun h => hp h.symm
  simp [HypercubeCoreM.updateParametersGP, HypercubeCoreM.frameTick, hg', hp']

/-- C5 witness: a hypersphere geometry change on the default state. -/
theorem geometry_change_triggers_single_relink_witness :
    (HypercubeCoreM.updateParametersGP (some "hypersphere") none
        ⟨"hypercube", "perspective", false, true, false, 0, []⟩).needsShaderUpdate = true
    ∧ (HypercubeCoreM.updateParametersGP none (some "orthographic")
        ⟨"hypercube", "perspective", false, true, false, 0, []⟩).needsShaderUpdate = true
    ∧ (HypercubeCoreM.frameTick true (HypercubeCoreM.updateParametersGP (some "hypersphere")
        none ⟨"hypercube", "perspective", false, true, false, 0, []⟩)).relinkCount = 0 + 1
    ∧ (HypercubeCoreM.frameTick true (HypercubeCoreM.updateParametersGP (some "hypersphere")
        none ⟨"hypercube", "perspective", false, true, false, 0, []⟩)).needsShaderUpdate
        = false
    ∧ (HypercubeCoreM.frameTick true (HypercubeCoreM.frameTick true
        (HypercubeCoreM.updateParametersGP (some "hypersphere") none
          ⟨"hypercube", "perspective", false, true, false, 0, []⟩))).relinkCount = 0 + 1
    ∧ (HypercubeCoreM.frameTick false (HypercubeCoreM.updateParametersGP (some "hypersphere")
        none ⟨"hypercube", "perspective", false, true, false, 0, []⟩)).isRendering = false
    ∧ (HypercubeCoreM.frameTick false (HypercubeCoreM.updateParametersGP (some "hypersphere")
        none ⟨"hypercube", "perspective", false, true, false, 0, []⟩)).errorCalled = true :=
  geometry_change_triggers_single_relink
    ⟨"hypercube", "perspective", false, true, false, 0, []⟩ "hypersphere" "orthographic"
    (by decide) (by decide)

/-- C9: in every reachable state of the sound module, the arpeggiator's
interval handle is non-null iff a step timer is armed, at most one timer
exists at a time, and `_startArpeggiator` refuses to arm while the handle is
non-null (every timer-starting path goes through it after cancelling any
running timer). -/
theorem arp_timer_single_owner (s : SoundModule.ModState)
    (h : SoundModule.Reachable s) :
    (s.arp.intervalId.isSome = true ↔ s.timers ≠ [])
    ∧ s.timers.length ≤ 1
    ∧ (s.arp.intervalId.isSome = true → SoundModule.startArpeggiator s = s) := by
  have key : SoundModule.TimerAgree s := by
    induction h with
    | init => rfl
    | step s0 op hR ih => exact SoundModule.timerAgree_applySoundOp op ih
  unfold SoundModule.TimerAgree at key
  refine ⟨?_, ?_, ?_⟩
  · rw [key]
    rcases hx : s.arp.intervalId with _ | id <;> simp
  · rw [key]
    rcases hx : s.arp.intervalId with _ | id <;> simp
  · intro hsome
    unfold SoundModule.startArpeggiator
    simp [hsome]

/-- C9 witness: the invariant at the concrete reachable state in which a
timer has just been armed (initialize, toggle the arpeggiator on, then press
A4). -/
theorem arp_timer_single_owner_witness :
    ((SoundModule.applySoundOp (.startNote "A4") (SoundModule.applySoundOp
        (.toggleArp true) (SoundModule.applySoundOp .initAudio
          SoundModule.initState))).arp.intervalId.isSome = true
      ↔ (SoundModule.applySoundOp (.startNote "A4") (SoundModule.applySoundOp
        (.toggleArp true) (SoundModule.applySoundOp .initAudio
          SoundModule.initState))).timers ≠ [])
    ∧ (SoundModule.applySoundOp (.startNote "A4") (SoundModule.applySoundOp
        (.toggleArp true) (SoundModule.applySoundOp .initAudio
          SoundModule.initState))).timers.length ≤ 1
    ∧ ((SoundModule.applySoundOp (.startNote "A4") (SoundModule.applySoundOp
        (.toggleArp true) (SoundModule.applySoundOp .initAudio
          SoundModule.initState))).arp.intervalId.isSome = true
      → SoundModule.startArpeggiator (SoundModule.applySoundOp (.startNote "A4")
          (SoundModule.applySoundOp (.toggleArp true) (SoundModule.applySoundOp
            .initAudio SoundModule.initState)))
        = SoundModule.applySoundOp (.startNote "A4") (SoundModule.applySoundOp
            (.toggleArp true) (SoundModule.applySoundOp .initAudio
              SoundModule.initState))) :=
  arp_timer_single_owner _
    (SoundModule.Reachable.step _ (.startNote "A4")
      (SoundModule.Reachable.step _ (.toggleArp true)
        (SoundModule.Reachable.step _ .initAudio SoundModule.Reachable.init)))

/-- C2: with a non-empty pattern and a valid base note, `_arpStep` plays
`baseFrequency * (2^(1/12))^(pattern[step mod patternLength])`; in
particular with pattern `[0, 4, 7]`, base note A4 (440 Hz), step 0 plays
440 Hz, step 1 plays `440·2^(4/12)`, step 2 plays `440·2^(7/12)`, and step 3
wraps back to 440 Hz. -/
theorem arpStep_frequency_formula (arp : SoundModule.ArpState) (f : ℚ)
    (hactive : arp.active = true) (hpat : arp.pattern ≠ [])
    (hnote : arp.baseNote.bind SoundModule.noteFrequency = some f) :
    SoundModule.arpStepFrequency arp
      = some ((f : ℝ) * SoundModule.semitoneRatio
          ^ (((arp.pattern.getD (arp.currentStep % arp.pattern.length) 0 : ℤ)) : ℝ))
    ∧ SoundModule.arpStepFrequency (SoundModule.scenarioArp 0) = some 440
    ∧ SoundModule.arpStepFrequency (SoundModule.scenarioArp 1)
        = some (440 * (2 : ℝ) ^ ((4 : ℝ) / 12))
    ∧ SoundModule.arpStepFrequency (SoundModule.scenarioArp 2)
        = some (440 * (2 : ℝ) ^ ((7 : ℝ) / 12))
    ∧ SoundModule.arpStepFrequency (SoundModule.scenarioArp 3) = some 440 := by
  have hA4 : SoundModule.noteFrequency "A4" = some 440 := by
    have hfind : SoundModule.noteFrequency "A4" = some 440.00 := rfl
    rw [hfind]
    norm_num
  have hpow : ∀ m : ℝ, SoundModule.semitoneRatio ^ m = (2 : ℝ) ^ (m / 12) := by
    intro m
    unfold SoundModule.semitoneRatio
    rw [← Real.rpow_mul (by norm_num : (0 : ℝ) ≤ 2)]
    congr 1
    ring
  refine ⟨?_, ?_, ?_, ?_, ?_⟩
  · cases hb : arp.baseNote with
    | none => rw [hb] at hnote; simp at hnote
    | some note =>
      rw [hb] at hnote
      simp only [Option.some_bind] at hnote
      simp [SoundModule.arpStepFrequency, hb, hnote, hactive, hpat]
  · simp [SoundModule.arpStepFrequency, SoundModule.scenarioArp, hA4]
  · rw [show SoundModule.arpStepFrequency (SoundModule.scenarioArp 1)
        = some (((440 : ℚ) : ℝ) * SoundModule.semitoneRatio ^ ((4 : ℝ))) by
      simp [SoundModule.arpStepFrequency, SoundModule.scenarioArp, hA4]]
    rw [hpow]
    norm_num
  · rw [show SoundModule.arpStepFrequency (SoundModule.scenarioArp 2)
        = some (((440 : ℚ) : ℝ) * SoundModule.semitoneRatio ^ ((7 : ℝ))) by
      simp [SoundModule.arpStepFrequency, SoundModule.scenarioArp, hA4]]
    rw [hpow]
    norm_num
  · simp [SoundModule.arpStepFrequency, SoundModule.scenarioArp, hA4]

/-- C2 witness: the formula instantiated at the spec's A4 scenario, step 0. -/
theorem arpStep_frequency_formula_witness :
    SoundModule.arpStepFrequency (SoundModule.scenarioArp 0)
      = some (((440 : ℚ) : ℝ) * SoundModule.semitoneRatio
          ^ ((((SoundModule.scenarioArp 0).pattern.getD
              ((SoundModule.scenarioArp 0).currentStep
                % (SoundModule.scenarioArp 0).pattern.length) 0 : ℤ)) : ℝ))
    ∧ SoundModule.arpStepFrequency (SoundModule.scenarioArp 0) = some 440
    ∧ SoundModule.arpStepFrequency (SoundModule.scenarioArp 3) = some 440 :=
  have h := arpStep_frequency_formula (SoundModule.scenarioArp 0) 440 rfl
    (by simp [SoundModule.scenarioArp])
    (by
      show SoundModule.noteFrequency "A4" = some 440
      have hfind : SoundModule.noteFrequency "A4" = some 440.00 := rfl
      rw [hfind]
      norm_num)
  ⟨h.1, h.2.1, h.2.2.2.2⟩

/-- C8: on an analyzer buffer with every bin at 255, all three band levels
of `getAudioLevels` compute to exactly 1 (after the per-band exponent, gain
and clamp); on an all-zero buffer all three are exactly 0.  `bufferLength`
and `sampleRate` must give each band at least one bin (the bass band always
has bin 0). -/
theorem audio_levels_saturate_and_vanish (sampleRate : ℚ) (bufferLength : ℕ)
    (hbuf : 1 ≤ bufferLength)
    (hmid : 1 ≤ SoundModule.midCount sampleRate bufferLength)
    (hhigh : 1 ≤ SoundModule.highCount sampleRate bufferLength) :
    ((SoundModule.getAudioLevels sampleRate bufferLength (fun _ => 255)).bass = 1
      ∧ (SoundModule.getAudioLevels sampleRate bufferLength (fun _ => 255)).mid = 1
      ∧ (SoundModule.getAudioLevels sampleRate bufferLength (fun _ => 255)).high = 1)
    ∧ ((SoundModule.getAudioLevels sampleRate bufferLength (fun _ => 0)).bass = 0
      ∧ (SoundModule.getAudioLevels sampleRate bufferLength (fun _ => 0)).mid = 0
      ∧ (SoundModule.getAudioLevels sampleRate bufferLength (fun _ => 0)).high = 0) := by
  have hbass := SoundModule.one_le_bassCount sampleRate bufferLength hbuf
  refine ⟨⟨?_, ?_, ?_⟩, ?_, ?_, ?_⟩
  · show min 1 (max 0 (((SoundModule.bassSum sampleRate bufferLength (fun _ => 255) : ℝ)
        / ((SoundModule.bassCount sampleRate bufferLength : ℝ) + 1 / 1000000) / 255)
        ^ (0.8 : ℝ) * 1.8)) = 1
    rw [SoundModule.bassSum_const255]
    exact SoundModule.band_level_saturates _ _ _ hbass (by norm_num) (by norm_num)
      (by norm_num)
  · show min 1 (max 0 (((SoundModule.midSum sampleRate bufferLength (fun _ => 255) : ℝ)
        / ((SoundModule.midCount sampleRate bufferLength : ℝ) + 1 / 1000000) / 255)
        ^ (0.9 : ℝ) * 1.4)) = 1
    rw [SoundModule.midSum_const255]
    exact SoundModule.band_level_saturates _ _ _ hmid (by norm_num) (by norm_num)
      (by norm_num)
  · show min 1 (max 0 (((SoundModule.highSum sampleRate bufferLength (fun _ => 255) : ℝ)
        / ((SoundModule.highCount sampleRate bufferLength : ℝ) + 1 / 1000000) / 255)
        ^ (0.7 : ℝ) * 2.2)) = 1
    rw [SoundModule.highSum_const255]
    exact SoundModule.band_level_saturates _ _ _ hhigh (by norm_num) (by norm_num)
      (by norm_num)
  · show min 1 (max 0 (((SoundModule.bassSum sampleRate bufferLength (fun _ => 0) : ℝ)
        / ((SoundModule.bassCount sampleRate bufferLength : ℝ) + 1 / 1000000) / 255)
        ^ (0.8 : ℝ) * 1.8)) = 0
    rw [SoundModule.bassSum_zero]
    exact SoundModule.band_level_zero _ _ _ (by norm_num)
  · show min 1 (max 0 (((SoundModule.midSum sampleRate bufferLength (fun _ => 0) : ℝ)
        / ((SoundModule.midCount sampleRate bufferLength : ℝ) + 1 / 1000000) / 255)
        ^ (0.9 : ℝ) * 1.4)) = 0
    rw [SoundModule.midSum_zero]
    exact SoundModule.band_level_zero _ _ _ (by norm_num)
  · show min 1 (max 0 (((SoundModule.highSum sampleRate bufferLength (fun _ => 0) : ℝ)
        / ((SoundModule.highCount sampleRate bufferLength : ℝ) + 1 / 1000000) / 255)
        ^ (0.7 : ℝ) * 2.2)) = 0
    rw [SoundModule.highSum_zero]
    exact SoundModule.band_level_zero _ _ _ (by norm_num)

/-- C8 witness: a concrete analyzer configuration (sample rate 16000 Hz,
8 bins) in which every band covers at least one bin. -/
theorem audio_levels_saturate_and_vanish_witness :
    ((SoundModule.getAudioLevels 16000 8 (fun _ => 255)).bass = 1
      ∧ (SoundModule.getAudioLevels 16000 8 (fun _ => 255)).mid = 1
      ∧ (SoundModule.getAudioLevels 16000 8 (fun _ => 255)).high = 1)
    ∧ ((SoundModule.getAudioLevels 16000 8 (fun _ => 0)).bass = 0
      ∧ (SoundModule.getAudioLevels 16000 8 (fun _ => 0)).mid = 0
      ∧ (SoundModule.getAudioLevels 16000 8 (fun _ => 0)).high = 0) :=
  audio_levels_saturate_and_vanish 16000 8 (by norm_num)
    (by
      have hb : SoundModule.bassEndIndex 16000 8 = 0 := by
        norm_num [SoundModule.bassEndIndex]
      have hm : SoundModule.midEndIndex 16000 8 = 2 := by
        norm_num [SoundModule.midEndIndex, Int.toNat_ofNat]
        rfl
      norm_num [SoundModule.midCount, SoundModule.midStartIndex, hb, hm,
        Finset.sum_range_succ])
    (by
      have hb : SoundModule.bassEndIndex 16000 8 = 0 := by
        norm_num [SoundModule.bassEndIndex]
      have hm : SoundModule.midEndIndex 16000 8 = 2 := by
        norm_num [SoundModule.midEndIndex, Int.toNat_ofNat]
        rfl
      have hh : SoundModule.highEndIndex 16000 8 = 6 := by
        norm_num [SoundModule.highEndIndex, Int.toNat_ofNat]
        rfl
      norm_num [SoundModule.highCount, SoundModule.midStartIndex,
        SoundModule.highStartIndex, hb, hm, hh, Finset.sum_range_succ])

/-- C6 counterexample: at the concrete input `p = (0, 0, 0, −1.5)` — inside
the singular region `|p.w − poleW| < ε` with silent high band — the
stereographic projection computes `normalize(vec3(0)) * 1000.0`, which GLSL
leaves undefined (NaN on hardware), so the result is not a finite vector:
the claim's "never NaN" fails at the pole axis point. -/
theorem stereographic_pole_zero_vector_undefined :
    |(ProjectionM.Vec4.mk 0 0 0 (-1.5)).w - ProjectionM.dynamicPoleW (-1.5) 0| < 0.01
    ∧ ProjectionM.stereographicProject (-1.5) 0 0 ⟨0, 0, 0, -1.5⟩ = none := by
  constructor
  · rw [ProjectionM.dynamicPoleW_shipped]
    norm_num
  · unfold ProjectionM.stereographicProject
    rw [ProjectionM.dynamicPoleW_shipped]
    dsimp only
    rw [if_pos (by norm_num : |(-1.5 : ℝ) - (-1.5)| < 0.01)]
    unfold ProjectionM.glslNormalize ProjectionM.Vec4.xyz
    rw [if_pos ⟨rfl, rfl, rfl⟩]
    rfl

/-- C6 (amended): for every point of the singular region whose xyz part is
non-zero, the stereographic projection returns a finite vector — the
1000-magnitude stand-in for infinity blended toward `p.xyz` — of magnitude
at most `max 1000 ‖p.xyz‖`, for any morph factor and audio-high level. -/
theorem stereographic_near_pole_bounded (basePoleW audioHigh morphFactor : ℝ)
    (p : ProjectionM.Vec4) (hxyz : ¬(p.x = 0 ∧ p.y = 0 ∧ p.z = 0))
    (hnear : |p.w - ProjectionM.dynamicPoleW basePoleW audioHigh| < 0.01) :
    ∃ v, ProjectionM.stereographicProject basePoleW audioHigh morphFactor p = some v
      ∧ ProjectionM.norm3 v ≤ max 1000 (ProjectionM.norm3 p.xyz) := by
  have hxyz2 : ¬(p.xyz.x = 0 ∧ p.xyz.y = 0 ∧ p.xyz.z = 0) := hxyz
  unfold ProjectionM.stereographicProject
  dsimp only
  rw [if_pos hnear]
  unfold ProjectionM.glslNormalize
  rw [if_neg hxyz2]
  refine ⟨_, rfl, ?_⟩
  set u := ProjectionM.Vec3.scale (ProjectionM.norm3 p.xyz)⁻¹ p.xyz with hu
  set t := ProjectionM.smoothstepR 0 1 (morphFactor * 0.8) with htdef
  have ht0 : 0 ≤ t := ProjectionM.smoothstepR_nonneg _ _ _
  have ht1 : t ≤ 1 := ProjectionM.smoothstepR_le_one _ _ _
  have hb := ProjectionM.norm3_mix3_le (ProjectionM.Vec3.scale 1000 u) p.xyz t ht0 ht1
  have hnu : ProjectionM.norm3 (ProjectionM.Vec3.scale 1000 u) = 1000 := by
    rw [hu, ProjectionM.norm3_scale, ProjectionM.norm3_scale]
    have hp : 0 < ProjectionM.norm3 p.xyz := ProjectionM.norm3_pos _ hxyz
    rw [abs_of_nonneg (inv_nonneg.mpr hp.le), inv_mul_cancel₀ (ne_of_gt hp)]
    norm_num
  rw [hnu] at hb
  refine le_trans hb ?_
  have hm1 := le_max_left (1000 : ℝ) (ProjectionM.norm3 p.xyz)
  have hm2 := le_max_right (1000 : ℝ) (ProjectionM.norm3 p.xyz)
  nlinarith [mul_nonneg (by linarith : (0 : ℝ) ≤ 1 - t)
      (by linarith : (0 : ℝ) ≤ max 1000 (ProjectionM.norm3 p.xyz) - 1000),
    mul_nonneg ht0
      (by linarith : (0 : ℝ) ≤ max 1000 (ProjectionM.norm3 p.xyz)
        - ProjectionM.norm3 p.xyz)]

/-- C6 witness: the bound at the concrete near-pole point `(1, 0, 0, −1.5)`. -/
theorem stereographic_near_pole_bounded_witness :
    ∃ v, ProjectionM.stereographicProject (-1.5) 0 0 ⟨1, 0, 0, -1.5⟩ = some v
      ∧ ProjectionM.norm3 v
        ≤ max 1000 (ProjectionM.norm3 (ProjectionM.Vec4.xyz ⟨1, 0, 0, -1.5⟩)) :=
  stereographic_near_pole_bounded (-1.5) 0 0 ⟨1, 0, 0, -1.5⟩
    (by norm_num)
    (by rw [ProjectionM.dynamicPoleW_shipped]; norm_num)

/-- C7 counterexample: at `p = (1, 0, 0, 1)`, morph 1, silent mid band, the
orthographic projection's fully-morphed output is `(5/7, 0, 0)` — its blend
target uses view distance `2.5·(1−0.4·mid)` — while the
`PerspectiveProjection` formula at the same uniforms gives `(7/9, 0, 0)`
from view distance `2.5·(1+0.4·morph−0.3·mid)`: the claim's "at m=1 equals
the perspective projection's output" is false. -/
theorem ortho_persp_formula_mismatch :
    ProjectionM.orthographicProject 1 0 ⟨1, 0, 0, 1⟩
      ≠ ProjectionM.perspectiveProject 2.5 1 0 ⟨1, 0, 0, 1⟩ := by
  have h1 : (ProjectionM.orthographicProject 1 0 ⟨1, 0, 0, 1⟩).x = 5 / 7 := by
    unfold ProjectionM.orthographicProject ProjectionM.mix3 ProjectionM.smoothstepR
      ProjectionM.clampR ProjectionM.Vec3.scale ProjectionM.Vec4.xyz
    norm_num [max_def, min_def]
  have h2 : (ProjectionM.perspectiveProject 2.5 1 0 ⟨1, 0, 0, 1⟩).x = 7 / 9 := by
    unfold ProjectionM.perspectiveProject ProjectionM.Vec3.scale ProjectionM.Vec4.xyz
    norm_num [max_def, min_def]
  intro heq
  rw [heq, h2] at h1
  norm_num at h1

/-- C7 (amended): for every point and mid-band level, the orthographic
projection at morph 0 returns the unmodified xyz components, and at morph 1
it equals the perspective projection formula evaluated with the blend
target's own audio-modulated view distance `2.5·(1−0.4·mid)` and no
morph/audio modulation of its own (not the `PerspectiveProjection`
strategy's output at the same uniforms). -/
theorem orthographic_blend_endpoints (audioMid : ℝ) (p : ProjectionM.Vec4) :
    ProjectionM.orthographicProject 0 audioMid p = p.xyz
    ∧ ProjectionM.orthographicProject 1 audioMid p
      = ProjectionM.perspectiveProject (2.5 * (1 - audioMid * 0.4)) 0 0 p := by
  have hsm0 : ProjectionM.smoothstepR 0 1 0 = 0 := by
    unfold ProjectionM.smoothstepR ProjectionM.clampR
    norm_num [max_def, min_def]
  have hsm1 : ProjectionM.smoothstepR 0 1 1 = 1 := by
    unfold ProjectionM.smoothstepR ProjectionM.clampR
    norm_num [max_def, min_def]
  have hd : max (0.2 : ℝ) (max 0.1 (2.5 * (1 - audioMid * 0.4))
        * (1 + 0 * 0.4 - 0 * 0.3))
      = max 0.2 (2.5 * (1 - audioMid * 0.4)) := by
    rw [show (1 + 0 * 0.4 - 0 * 0.3 : ℝ) = 1 by norm_num, mul_one, ← max_assoc]
    rw [show max (0.2 : ℝ) 0.1 = 0.2 from max_eq_left (by norm_num)]
  constructor
  · unfold ProjectionM.orthographicProject
    dsimp only
    rw [hsm0]
    ext <;> dsimp [ProjectionM.mix3, ProjectionM.Vec4.xyz, ProjectionM.Vec3.scale] <;> ring
  · unfold ProjectionM.orthographicProject ProjectionM.perspectiveProject
    dsimp only
    rw [hsm1, hd]
    ext <;> dsimp [ProjectionM.mix3, ProjectionM.Vec4.xyz, ProjectionM.Vec3.scale] <;> ring

end Maleficarum
